import Mathlib

/-!
Shallow embedding of the max CLI daemon client (Rust sources under
packages/cli/cli/src and packages/cli/rust-proxy/src) and proofs about it.

Machine integers are modelled as Nat/Int with explicit reductions modulo
powers of two where the Rust code can overflow or truncate.  Filesystem and
operating-system effects (socket connections, process probes, file reads)
are modelled as explicit oracle parameters threaded through the functions,
so each embedded function is a pure, executable Lean definition whose
branching mirrors the Rust control flow.
-/

namespace MaxProxy

/-- Two's-complement wrap of an arbitrary integer into i32, modelling the
Rust cast `as i32` applied to an i64 value. -/
def wrap32 (n : Int) : Int :=
  (n + 2 ^ 31) % 2 ^ 32 - 2 ^ 31

/-- Model of Rust `str::trim_end_matches` with pattern newline: removes every
trailing newline character. -/
def trimEndNewlines (s : String) : String :=
  String.mk ((s.data.reverse.dropWhile (fun c => c = '\n')).reverse)

/-- ASCII-range model of Rust `str::trim`: removes leading and trailing
whitespace characters. -/
def rustTrim (s : String) : String :=
  String.mk (((s.data.dropWhile Char.isWhitespace).reverse.dropWhile
    Char.isWhitespace).reverse)

/-- Digit-list valuation helper for `parseI32`. -/
def digitsVal (cs : List Char) : Nat :=
  cs.foldl (fun a c => a * 10 + (c.toNat - 48)) 0

/-- Model of Rust `str::parse::<i32>()`: an optional sign, then one or more
ASCII digits, with the resulting value required to fit in i32. -/
def parseI32 (s : String) : Option Int :=
  match s.data with
  | [] => none
  | c :: rest =>
    let signDigits : Int × List Char :=
      if c = '-' then (-1, rest)
      else if c = '+' then (1, rest) else (1, c :: rest)
    match signDigits with
    | (sign, digits) =>
      if digits = [] then none
      else if digits.all Char.isDigit then
        let v : Int := sign * (digitsVal digits : Nat)
        if -2147483648 ≤ v ∧ v ≤ 2147483647 then some v else none
      else none

/-- Model of `PathBuf::join` with a relative component, at string level. -/
def pathJoin (a b : String) : String :=
  a ++ "/" ++ b

/-- Model of `collect::<String>()` over a list of string fragments. -/
def strConcat : List String → String
  | [] => ""
  | s :: rest => s ++ strConcat rest

/-! ## SHA-256 (the `sha2` crate digest used by `project_hash`) -/

namespace Sha256

/-- 2 ^ 32, the modulus for 32-bit words. -/
def M32 : Nat := 4294967296

/-- 32-bit modular addition. -/
def add32 (a b : Nat) : Nat := (a + b) % M32

/-- 32-bit right rotation. -/
def rotr (n x : Nat) : Nat := ((x >>> n) ||| (x <<< (32 - n))) % M32

/-- 32-bit bitwise complement (for values below 2 ^ 32). -/
def not32 (x : Nat) : Nat := x ^^^ (M32 - 1)

/-- SHA-256 choose function. -/
def ch (x y z : Nat) : Nat := (x &&& y) ^^^ (not32 x &&& z)

/-- SHA-256 majority function. -/
def maj (x y z : Nat) : Nat := (x &&& y) ^^^ (x &&& z) ^^^ (y &&& z)

/-- SHA-256 big sigma 0. -/
def bigS0 (x : Nat) : Nat := rotr 2 x ^^^ rotr 13 x ^^^ rotr 22 x

/-- SHA-256 big sigma 1. -/
def bigS1 (x : Nat) : Nat := rotr 6 x ^^^ rotr 11 x ^^^ rotr 25 x

/-- SHA-256 small sigma 0. -/
def smallS0 (x : Nat) : Nat := rotr 7 x ^^^ rotr 18 x ^^^ (x >>> 3)

/-- SHA-256 small sigma 1. -/
def smallS1 (x : Nat) : Nat := rotr 17 x ^^^ rotr 19 x ^^^ (x >>> 10)

/-- The 64 SHA-256 round constants (in decimal). -/
def K : List Nat :=
  [1116352408, 1899447441, 3049323471, 3921009573,
   961987163, 1508970993, 2453635748, 2870763221,
   3624381080, 310598401, 607225278, 1426881987,
   1925078388, 2162078206, 2614888103, 3248222580,
   3835390401, 4022224774, 264347078, 604807628,
   770255983, 1249150122, 1555081692, 1996064986,
   2554220882, 2821834349, 2952996808, 3210313671,
   3336571891, 3584528711, 113926993, 338241895,
   666307205, 773529912, 1294757372, 1396182291,
   1695183700, 1986661051, 2177026350, 2456956037,
   2730485921, 2820302411, 3259730800, 3345764771,
   3516065817, 3600352804, 4094571909, 275423344,
   430227734, 506948616, 659060556, 883997877,
   958139571, 1322822218, 1537002063, 1747873779,
   1955562222, 2024104815, 2227730452, 2361852424,
   2428436474, 2756734187, 3204031479, 3329325298]

/-- Working state of the compression function: eight 32-bit words. -/
structure H8 where
  a : Nat
  b : Nat
  c : Nat
  d : Nat
  e : Nat
  f : Nat
  g : Nat
  h : Nat
deriving Repr, DecidableEq

/-- The SHA-256 initial hash value (in decimal). -/
def H0 : H8 :=
  ⟨1779033703, 3144134277, 1013904242, 2773480762,
   1359893119, 2600822924, 528734635, 1541459225⟩

/-- One round of the SHA-256 compression function. -/
def round (st : H8) (k w : Nat) : H8 :=
  let t1 := add32 (add32 (add32 st.h (bigS1 st.e)) (add32 (ch st.e st.f st.g) k)) w
  let t2 := add32 (bigS0 st.a) (maj st.a st.b st.c)
  ⟨add32 t1 t2, st.a, st.b, st.c, add32 st.d t1, st.e, st.f, st.g⟩

/-- Extend a 16-word message block by `fuel` additional schedule words. -/
def extendW : Nat → List Nat → List Nat
  | 0, ws => ws
  | fuel + 1, ws =>
    let n := ws.length
    let w := add32 (add32 (smallS1 (ws.getD (n - 2) 0)) (ws.getD (n - 7) 0))
                   (add32 (smallS0 (ws.getD (n - 15) 0)) (ws.getD (n - 16) 0))
    extendW fuel (ws ++ [w])

/-- Compress one 64-byte block (given as 16 big-endian words) into the state. -/
def compress (st : H8) (block : List Nat) : H8 :=
  let ws := extendW 48 block
  let z := (K.zip ws).foldl (fun s kw => round s kw.1 kw.2) st
  ⟨add32 st.a z.a, add32 st.b z.b, add32 st.c z.c, add32 st.d z.d,
   add32 st.e z.e, add32 st.f z.f, add32 st.g z.g, add32 st.h z.h⟩

/-- Split a byte list into 64-byte chunks (fuel-driven structural recursion;
call with fuel at least the list length). -/
def chunk64 : Nat → List Nat → List (List Nat)
  | 0, _ => []
  | _, [] => []
  | fuel + 1, bs => bs.take 64 :: chunk64 fuel (bs.drop 64)

/-- Pack bytes into big-endian 32-bit words. -/
def toWords : List Nat → List Nat
  | b0 :: b1 :: b2 :: b3 :: rest =>
    (((b0 * 256 + b1) * 256 + b2) * 256 + b3) :: toWords rest
  | _ => []

/-- Big-endian 8-byte encoding of the 64-bit message bit length. -/
def lenBytes (bitLen : Nat) : List Nat :=
  [bitLen >>> 56 % 256, bitLen >>> 48 % 256, bitLen >>> 40 % 256,
   bitLen >>> 32 % 256, bitLen >>> 24 % 256, bitLen >>> 16 % 256,
   bitLen >>> 8 % 256, bitLen % 256]

/-- SHA-256 padding: append 0x80, zeros to 56 mod 64, then the bit length. -/
def pad (msg : List Nat) : List Nat :=
  let l := msg.length
  let zeros := (119 - l % 64) % 64
  msg ++ [0x80] ++ List.replicate zeros 0 ++ lenBytes (8 * l)

/-- Big-endian 4-byte encoding of a 32-bit word. -/
def wordBE (w : Nat) : List Nat :=
  [w >>> 24 % 256, w >>> 16 % 256, w >>> 8 % 256, w % 256]

/-- The 32 output bytes of a final state. -/
def digestBytes (st : H8) : List Nat :=
  wordBE st.a ++ wordBE st.b ++ wordBE st.c ++ wordBE st.d ++
  wordBE st.e ++ wordBE st.f ++ wordBE st.g ++ wordBE st.h

/-- SHA-256 digest of a byte list, as 32 bytes. -/
def sha256 (msg : List Nat) : List Nat :=
  let padded := pad msg
  let blocks := (chunk64 padded.length padded).map toWords
  digestBytes (blocks.foldl compress H0)

end Sha256

/-- UTF-8 encoding of one character, as bytes. -/
def utf8Char (c : Char) : List Nat :=
  let n := c.toNat
  if n < 128 then [n]
  else if n < 2048 then [192 + n / 64, 128 + n % 64]
  else if n < 65536 then [224 + n / 4096, 128 + n / 64 % 64, 128 + n % 64]
  else [240 + n / 262144, 128 + n / 4096 % 64, 128 + n / 64 % 64, 128 + n % 64]

/-- UTF-8 encoding of a string (model of Rust `str::as_bytes`). -/
def utf8 (s : String) : List Nat :=
  (s.data.map utf8Char).flatten

/-! ## DaemonAddressing (cli/src/daemon.rs lines 16-43, rust-proxy lines 16-32) -/

/-- Lowercase hexadecimal digit. -/
def hexDigit (n : Nat) : Char :=
  "0123456789abcdef".data.getD n '0'

/-- Model of Rust `format with 02x` on one byte. -/
def byteHex (b : Nat) : String :=
  String.mk [hexDigit (b / 16), hexDigit (b % 16)]

/-- Embedding of `project_hash` (cli/src/daemon.rs lines 24-29): SHA-256 of
the UTF-8 bytes of the project root path, first 6 bytes rendered as lowercase
hex. -/
def project_hash (project_root : String) : String :=
  strConcat (((Sha256.sha256 (utf8 project_root)).take 6).map byteHex)

/-- The four per-daemon filesystem paths. -/
structure DaemonPaths where
  dir : String
  socket : String
  pid : String
  log : String
deriving Repr, DecidableEq

/-- Embedding of `DaemonPaths::for_project` (cli/src/daemon.rs lines 31-43).
The Rust code reads the HOME environment variable; here the ambient HOME
value is an explicit argument, making the dependence visible. -/
def DaemonPaths.for_project (home : String) (project_root : String) : DaemonPaths :=
  let hash := project_hash project_root
  let dir := pathJoin (pathJoin (pathJoin home ".max") "daemons") hash
  { dir := dir
    socket := pathJoin dir "daemon.sock"
    pid := pathJoin dir "daemon.pid"
    log := pathJoin dir "daemon.log" }

/-- Embedding of `global_daemon_paths` (rust-proxy/src/daemon.rs lines
23-32): the single global daemon directory under HOME. -/
def global_daemon_paths (home : String) : DaemonPaths :=
  let dir := pathJoin home ".max"
  { dir := dir
    socket := pathJoin dir "daemon.sock"
    pid := pathJoin dir "daemon.pid"
    log := pathJoin dir "daemon.log" }

/-! ## ProjectLocator (cli/src/daemon.rs lines 50-60)

Directories are modelled as lists of path components with the deepest
component first, so that `PathBuf::pop` is `List.tail` and `PathBuf::join`
with a file name is `List.cons`; the empty list is the filesystem root. -/

/-- Oracle for the filesystem facts `find_project_root` consults. -/
structure FS where
  pathExists : List String → Bool
  isDir : List String → Bool
  canonicalize : List String → Option (List String)

/-- The marker test of the loop body: `dir.join(max.json).exists() &&
dir.join(.max).is_dir()`. -/
def hasMarkers (fs : FS) (d : List String) : Bool :=
  fs.pathExists ("max.json" :: d) && fs.isDir (".max" :: d)

/-- The ascent loop of `find_project_root`: test the current directory, then
pop one component, failing once the root has been tested. -/
def rootSearch (fs : FS) : List String → Option (List String)
  | [] => if hasMarkers fs [] then some [] else none
  | c :: rest =>
    if hasMarkers fs (c :: rest) then some (c :: rest) else rootSearch fs rest

/-- Embedding of `find_project_root` (cli/src/daemon.rs lines 50-60):
canonicalize the start directory (returning none on failure), then ascend. -/
def find_project_root (fs : FS) (start_dir : List String) : Option (List String) :=
  match fs.canonicalize start_dir with
  | none => none
  | some d => rootSearch fs d

/-- The directory together with all of its ancestors up to and including the
filesystem root, in ascending order. -/
def ancestors : List String → List (List String)
  | [] => [[]]
  | c :: rest => (c :: rest) :: ancestors rest

/-! ## DaemonLifecycle: liveness (both daemon.rs files, identical bodies) -/

/-- Embedding of `is_daemon_alive` (cli/src/daemon.rs lines 99-110 and
rust-proxy/src/daemon.rs lines 71-82).  `pidFile` is the result of
`fs::read_to_string` on the pid path (`none` models any read error,
including an absent file); `kill0` is the oracle for the C call
`kill(pid, 0) == 0`. -/
def is_daemon_alive (pidFile : Option String) (kill0 : Int → Bool) : Bool :=
  match pidFile with
  | none => false
  | some s =>
    match parseI32 (rustTrim s) with
    | none => false
    | some pid => kill0 pid

/-! ## DaemonLifecycle: spawn (cli lines 117-159, rust-proxy lines 89-120) -/

/-- How a child process standard stream is wired. -/
inductive StdioCfg where
  | nullDev : StdioCfg
  | inherited : StdioCfg
  | toFile : String → StdioCfg
deriving Repr, DecidableEq

/-- How a file handle passed to the child was opened. -/
inductive OpenMode where
  | createTruncate : OpenMode
  | appendExisting : OpenMode
deriving Repr, DecidableEq

/-- Effect of opening a file in a given mode on its previous contents
(`none` models an absent file): `File::create` truncates to empty, while an
append-mode open would keep the existing contents. -/
def applyOpen : OpenMode → Option String → String
  | OpenMode.createTruncate, _ => ""
  | OpenMode.appendExisting, prev => prev.getD ""

/-- The launch request handed to the operating system by `Command::spawn`. -/
structure CmdSpec where
  program : String
  args : List String
  cwd : Option String
  stdinCfg : StdioCfg
  stdoutCfg : StdioCfg
  stderrCfg : StdioCfg
  stderrOpen : OpenMode
deriving Repr, DecidableEq

/-- Oracle outcomes for the fallible steps of `spawn`. -/
structure SpawnEnv where
  scriptRes : Except String String
  dev : Bool
  mkdirRes : Except String Unit
  writeJsonRes : Except String Unit
  createLogRes : Except String Unit
  osSpawnRes : Except String Unit

/-- Embedding of the per-project `spawn` (cli/src/daemon.rs lines 117-159).
On success it returns the exact process launch request: note the log handle
comes from `File::create`, i.e. create-or-truncate. -/
def spawnCli (env : SpawnEnv) (project_root : String) (paths : DaemonPaths) :
    Except String CmdSpec :=
  match env.scriptRes with
  | Except.error e => Except.error e
  | Except.ok script =>
    match env.mkdirRes with
    | Except.error e => Except.error ("Failed to create daemon dir: " ++ e)
    | Except.ok _ =>
      match env.writeJsonRes with
      | Except.error e => Except.error ("Failed to write project.json: " ++ e)
      | Except.ok _ =>
        match env.createLogRes with
        | Except.error e => Except.error ("Failed to create daemon log: " ++ e)
        | Except.ok _ =>
          let spec : CmdSpec :=
            { program := "bun"
              args := (if env.dev then ["--watch"] else ["run"]) ++
                [script, "--daemonized", "--project-root", project_root]
              cwd := some project_root
              stdinCfg := StdioCfg.nullDev
              stdoutCfg := StdioCfg.nullDev
              stderrCfg := StdioCfg.toFile paths.log
              stderrOpen := OpenMode.createTruncate }
          match env.osSpawnRes with
          | Except.error e => Except.error ("Failed to spawn daemon: " ++ e)
          | Except.ok _ => Except.ok spec

/-- Embedding of the global-daemon `spawn` (rust-proxy/src/daemon.rs lines
89-120): same wiring, without project.json, working directory, or the
project-root flag. -/
def spawnProxy (env : SpawnEnv) (paths : DaemonPaths) : Except String CmdSpec :=
  match env.scriptRes with
  | Except.error e => Except.error e
  | Except.ok script =>
    match env.mkdirRes with
    | Except.error e => Except.error ("Failed to create daemon dir: " ++ e)
    | Except.ok _ =>
      match env.createLogRes with
      | Except.error e => Except.error ("Failed to create daemon log: " ++ e)
      | Except.ok _ =>
        let spec : CmdSpec :=
          { program := "bun"
            args := (if env.dev then ["--watch"] else ["run"]) ++
              [script, "--daemonized"]
            cwd := none
            stdinCfg := StdioCfg.nullDev
            stdoutCfg := StdioCfg.nullDev
            stderrCfg := StdioCfg.toFile paths.log
            stderrOpen := OpenMode.createTruncate }
        match env.osSpawnRes with
        | Except.error e => Except.error ("Failed to spawn daemon: " ++ e)
        | Except.ok _ => Except.ok spec

/-! ## ConnectionEstablisher (cli lines 161-189, rust-proxy lines 122-150)

`connect` is embedded as a trace-producing function: every observable action
(connection attempt, liveness probe, stale cleanup, spawn, sleep) is
recorded as an event, so theorems can speak about which actions happen and
in which order.  Connection attempts are numbered: 0 is the immediate
attempt, 1 to 20 are the attempts inside the retry loop. -/

/-- `MAX_CONNECT_ATTEMPTS` from both daemon.rs files. -/
def MAX_CONNECT_ATTEMPTS : Nat := 20

/-- `CONNECT_RETRY_MS` from both daemon.rs files. -/
def CONNECT_RETRY_MS : Nat := 50

/-- Observable actions of `connect`. -/
inductive CEv where
  | tryConn : String → Nat → CEv
  | checkAlive : CEv
  | cleanStale : CEv
  | spawnEv : CEv
  | sleep : Nat → CEv
deriving Repr, DecidableEq

/-- Oracle for the ambient conditions a run of `connect` meets: whether the
n-th `UnixStream::connect` call succeeds, the error text when it fails,
whether `is_daemon_alive` holds, and the result of `spawn`. -/
structure ConnEnv where
  attemptOk : Nat → Bool
  attemptErr : Nat → String
  alive : Bool
  spawnRes : Except String Unit

/-- The retry loop of `connect`: `attempt` is the loop counter of the next
iteration and `n` the number of iterations remaining, so a call with
`attempt + n = 20` mirrors `for attempt in 0..20`.  Each iteration sleeps
50 ms, then attempts to connect; the final failing iteration (remaining
count 1, i.e. `attempt == MAX_CONNECT_ATTEMPTS - 1`) formats the error via
`errFmt`. -/
def connectLoop (env : ConnEnv) (socket : String) (errFmt : String → String) :
    Nat → Nat → List CEv × Except String Unit
  | _, 0 => ([], Except.error "Failed to connect to daemon")
  | attempt, n + 1 =>
    let evs := [CEv.sleep CONNECT_RETRY_MS, CEv.tryConn socket (attempt + 1)]
    if env.attemptOk (attempt + 1) then (evs, Except.ok ())
    else if n = 0 then
      (evs, Except.error (errFmt (env.attemptErr (attempt + 1))))
    else
      let r := connectLoop env socket errFmt (attempt + 1) n
      (evs ++ r.1, r.2)

/-- Common body of both `connect` functions: immediate attempt, then
check-alive / clean-stale / spawn, then the bounded retry loop. -/
def connectModel (env : ConnEnv) (socket : String) (errFmt : String → String) :
    List CEv × Except String Unit :=
  if env.attemptOk 0 then ([CEv.tryConn socket 0], Except.ok ())
  else if env.alive then
    let r := connectLoop env socket errFmt 0 MAX_CONNECT_ATTEMPTS
    ([CEv.tryConn socket 0, CEv.checkAlive] ++ r.1, r.2)
  else
    match env.spawnRes with
    | Except.error e =>
      ([CEv.tryConn socket 0, CEv.checkAlive, CEv.cleanStale, CEv.spawnEv],
       Except.error e)
    | Except.ok _ =>
      let r := connectLoop env socket errFmt 0 MAX_CONNECT_ATTEMPTS
      ([CEv.tryConn socket 0, CEv.checkAlive, CEv.cleanStale, CEv.spawnEv] ++ r.1,
       r.2)

/-- Exhaustion message of the per-project `connect` (cli/src/daemon.rs lines
179-184): attempt count and last error, no socket path. -/
def cliConnectErr (e : String) : String :=
  "Failed to connect after " ++ toString MAX_CONNECT_ATTEMPTS ++ " attempts: " ++ e

/-- Exhaustion message of the global `connect` (rust-proxy/src/daemon.rs
lines 140-145): attempt count, last error, and the socket path. -/
def proxyConnectErr (socket : String) (e : String) : String :=
  "Failed to connect after " ++ toString MAX_CONNECT_ATTEMPTS ++ " attempts: " ++
    e ++ ", " ++ socket

/-- Embedding of `connect` from cli/src/daemon.rs lines 161-189 (per-project
daemon paths derived from HOME and the project root). -/
def connectCli (home project_root : String) (env : ConnEnv) :
    List CEv × Except String Unit :=
  let paths := DaemonPaths.for_project home project_root
  connectModel env paths.socket cliConnectErr

/-- Embedding of `connect` from rust-proxy/src/daemon.rs lines 122-150
(global daemon paths derived from HOME alone). -/
def connectProxy (home : String) (env : ConnEnv) :
    List CEv × Except String Unit :=
  let paths := global_daemon_paths home
  connectModel env paths.socket (proxyConnectErr paths.socket)

/-- Trace of `n` consecutive failing-or-final retry-loop iterations starting
at connection attempt `k`: each is a 50 ms sleep followed by one attempt. -/
def attemptTrace (socket : String) : Nat → Nat → List CEv
  | _, 0 => []
  | k, n + 1 =>
    CEv.sleep CONNECT_RETRY_MS :: CEv.tryConn socket k :: attemptTrace socket (k + 1) n

/-! ## SessionProtocol (rust-proxy/src/main.rs lines 108-191)

One inbound line either fails to read, fails to parse, or decodes to a
message; messages are the tagged union the dispatch `match` works through,
with string-typed fields optional exactly where the Rust code uses
`as_str` / `as_i64` / `as_array` (which yield `None` for missing fields or
fields of another JSON type). -/

/-- Fields of a terminal `response` message. -/
structure RespFields where
  stdout : Option String
  stderr : Option String
  exitCode : Option Int
  completions : Option (List (Option String))
  completionOutput : Option String
deriving Repr, DecidableEq

/-- A decoded daemon message: the `kind` dispatch of main.rs lines 131-190.
`unknown` is the catch-all arm for any other or missing `kind`. -/
inductive Msg where
  | prompt : Option String → Msg
  | write : Option String → Msg
  | response : RespFields → Msg
  | unknown : Msg
deriving Repr, DecidableEq

/-- Whether a message is a terminal `response`. -/
def Msg.isResponse : Msg → Bool
  | Msg.response _ => true
  | _ => false

/-- One received line of the stream: a read error, an unparsable line, or a
decoded message.  End of stream is the end of the list. -/
inductive StreamItem where
  | readErr : String → StreamItem
  | malformed : String → StreamItem
  | msg : Msg → StreamItem
deriving Repr, DecidableEq

/-- Observable terminal-side actions of the session loop: bytes printed to
standard output, bytes printed to standard error, and InputMessage values
sent back over the socket. -/
inductive Ev where
  | out : String → Ev
  | err : String → Ev
  | sendInput : String → Ev
deriving Repr, DecidableEq

/-- The request kind chosen by main.rs lines 65-75. -/
inductive ReqKind where
  | run : ReqKind
  | complete : ReqKind
deriving Repr, DecidableEq

/-- Output events of a `print` guarded by `as_str` (nothing is printed when
the field is absent or not a string). -/
def outOpt : Option String → List Ev
  | some s => [Ev.out s]
  | none => []

/-- Error-stream events of an `eprint` guarded by `as_str`. -/
def errOpt : Option String → List Ev
  | some s => [Ev.err s]
  | none => []

/-- Handling of the terminal `response` message (main.rs lines 160-186):
events emitted and the resulting process exit status.  A `complete` request
prints the completion output (or the string entries of `completions`, one
per line) and returns from main, so the process exits 0; a `run` request
prints stdout and stderr and exits with the (i32-cast) `exitCode`,
defaulting to 1 when absent. -/
def respEvents (kind : ReqKind) (f : RespFields) : List Ev × Int :=
  match kind with
  | ReqKind.complete =>
    match f.completionOutput with
    | some o => ([Ev.out o], 0)
    | none =>
      match f.completions with
      | some arr => ((arr.filterMap id).map (fun s => Ev.out (s ++ "\n")), 0)
      | none => ([], 0)
  | ReqKind.run =>
    (outOpt f.stdout ++ errOpt f.stderr, wrap32 (f.exitCode.getD 1))

/-- The conversational loop of main.rs lines 108-191 over a list of received
stream items and a list of available standard-input lines.  Produces the
ordered event trace and the process exit status.  Reading past the end of
standard input models `read_line` at EOF: it yields the empty string. -/
def sessionLoop (kind : ReqKind) : List StreamItem → List String → List Ev × Int
  | [], _ => ([Ev.err "Daemon closed connection unexpectedly"], 1)
  | StreamItem.readErr e :: _, _ => ([Ev.err ("Error reading from socket: " ++ e)], 1)
  | StreamItem.malformed e :: _, _ => ([Ev.err ("Error parsing message: " ++ e)], 1)
  | StreamItem.msg m :: rest, stdin =>
    match m with
    | Msg.prompt message =>
      let line := stdin.headD ""
      let r := sessionLoop kind rest stdin.tail
      (outOpt message ++ Ev.sendInput (trimEndNewlines line) :: r.1, r.2)
    | Msg.write t =>
      let r := sessionLoop kind rest stdin
      (outOpt t ++ r.1, r.2)
    | Msg.response f => respEvents kind f
    | Msg.unknown => sessionLoop kind rest stdin

/-- Events of one intermediate (non-response) message together with the
standard-input lines left after handling it. -/
def msgEvents (m : Msg) (stdin : List String) : List Ev × List String :=
  match m with
  | Msg.prompt message =>
    (outOpt message ++ [Ev.sendInput (trimEndNewlines (stdin.headD ""))], stdin.tail)
  | Msg.write t => (outOpt t, stdin)
  | Msg.response _ => ([], stdin)
  | Msg.unknown => ([], stdin)

/-- Concatenated event trace of a list of intermediate messages, threading
the standard-input lines through. -/
def preTrace : List Msg → List String → List Ev
  | [], _ => []
  | m :: ms, stdin => (msgEvents m stdin).1 ++ preTrace ms (msgEvents m stdin).2

/-- Standard-input lines remaining after a list of intermediate messages. -/
def stdinAfter : List Msg → List String → List String
  | [], stdin => stdin
  | m :: ms, stdin => stdinAfter ms (msgEvents m stdin).2

/-! ## Top level of rust-proxy main (main.rs lines 87-191) -/

/-- Oracle results for the fallible top-level steps of `main` after a
project root was found: the `connect` outcome, the daemon-script resolution
and direct-run outcome used by the `run_direct` fallback, the request write,
and the stream contents. -/
structure MainEnv where
  connectRes : Except String Unit
  scriptRes : Except String String
  directRes : Except String (Option Int)
  writeRes : Except String Unit
  items : List StreamItem
  stdin : List String

/-- Exit status of `run_direct` (main.rs lines 8-34): 1 when the daemon
script cannot be resolved or the child cannot be run, otherwise the child
status code, defaulting to 1 when the child was terminated without a code. -/
def runDirectExit (scriptRes : Except String String)
    (directRes : Except String (Option Int)) : Int :=
  match scriptRes with
  | Except.error _ => 1
  | Except.ok _ =>
    match directRes with
    | Except.error _ => 1
    | Except.ok c => c.getD 1

/-- Process exit status of rust-proxy `main` from the point where the daemon
socket is tried (main.rs lines 87-191): a `connect` failure falls back to
direct execution; a request-write failure exits 1; otherwise the session
loop decides the status. -/
def mainExit (kind : ReqKind) (env : MainEnv) : Int :=
  match env.connectRes with
  | Except.error _ => runDirectExit env.scriptRes env.directRes
  | Except.ok _ =>
    match env.writeRes with
    | Except.error _ => 1
    | Except.ok _ => (sessionLoop kind env.items env.stdin).2

/-! ## Helper lemmas -/

/-- The session loop over a block of intermediate messages followed by any
remainder: the trace splits into the per-message traces in arrival order,
and the remainder continues with the leftover standard-input lines. -/
theorem sessionLoop_pre (kind : ReqKind) (pre : List Msg)
    (h : ∀ m ∈ pre, m.isResponse = false) (rest : List StreamItem)
    (stdin : List String) :
    sessionLoop kind (pre.map StreamItem.msg ++ rest) stdin
      = (preTrace pre stdin ++ (sessionLoop kind rest (stdinAfter pre stdin)).1,
         (sessionLoop kind rest (stdinAfter pre stdin)).2) := by
  induction pre generalizing stdin with
  | nil => simp [preTrace, stdinAfter]
  | cons m ms ih =>
    have hm : m.isResponse = false := h m (List.mem_cons_self m ms)
    have hms : ∀ x ∈ ms, x.isResponse = false :=
      fun x hx => h x (List.mem_cons_of_mem m hx)
    cases m with
    | prompt message =>
      simp [sessionLoop, preTrace, stdinAfter, msgEvents, ih hms,
        List.append_assoc]
    | write t =>
      simp [sessionLoop, preTrace, stdinAfter, msgEvents, ih hms,
        List.append_assoc]
    | response f => simp [Msg.isResponse] at hm
    | unknown =>
      simp [sessionLoop, preTrace, stdinAfter, msgEvents, ih hms]

/-- One-step unfolding of the retry loop body. -/
theorem connectLoop_succ (env : ConnEnv) (socket : String)
    (errFmt : String → String) (attempt n : Nat) :
    connectLoop env socket errFmt attempt (n + 1)
      = (if env.attemptOk (attempt + 1) then
          ([CEv.sleep CONNECT_RETRY_MS, CEv.tryConn socket (attempt + 1)],
           Except.ok ())
         else if n = 0 then
          ([CEv.sleep CONNECT_RETRY_MS, CEv.tryConn socket (attempt + 1)],
           Except.error (errFmt (env.attemptErr (attempt + 1))))
         else
          (CEv.sleep CONNECT_RETRY_MS :: CEv.tryConn socket (attempt + 1) ::
            (connectLoop env socket errFmt (attempt + 1) n).1,
           (connectLoop env socket errFmt (attempt + 1) n).2)) := by
  simp only [connectLoop]
  by_cases h : env.attemptOk (attempt + 1) <;> by_cases hn : n = 0 <;>
    simp [h, hn]

/-- The retry loop under total failure: with every remaining attempt
failing, it performs exactly its budget of sleep-then-attempt iterations and
reports the formatted error built from the final underlying error. -/
theorem connectLoop_all_fail (env : ConnEnv) (socket : String)
    (errFmt : String → String) :
    ∀ (n attempt : Nat), 0 < n →
      (∀ j, attempt < j → j ≤ attempt + n → env.attemptOk j = false) →
      connectLoop env socket errFmt attempt n
        = (attemptTrace socket (attempt + 1) n,
           Except.error (errFmt (env.attemptErr (attempt + n)))) := by
  intro n
  induction n with
  | zero => intro attempt h0 _; exact absurd h0 (Nat.lt_irrefl 0)
  | succ m ih =>
    intro attempt _ h
    have h1 : env.attemptOk (attempt + 1) = false := h (attempt + 1) (by omega) (by omega)
    rw [connectLoop_succ]
    cases m with
    | zero => simp [h1, attemptTrace]
    | succ k =>
      have hrec := ih (attempt + 1) (by omega)
        (fun j hj1 hj2 => h j (by omega) (by omega))
      have harith : attempt + 1 + (k + 1) = attempt + (k + 1 + 1) := by omega
      rw [harith] at hrec
      simp [h1, hrec, attemptTrace]

/-- The retry loop returns at the first successful attempt: with attempts
after the current position failing strictly before `a` and succeeding at
`a`, the loop trace is the failing iterations followed by the successful
one, and the result is the stream. -/
theorem connectLoop_first_success (env : ConnEnv) (socket : String)
    (errFmt : String → String) :
    ∀ (n attempt a : Nat), attempt < a → a ≤ attempt + n →
      (∀ j, attempt < j → j < a → env.attemptOk j = false) →
      env.attemptOk a = true →
      connectLoop env socket errFmt attempt n
        = (attemptTrace socket (attempt + 1) (a - attempt - 1) ++
           [CEv.sleep CONNECT_RETRY_MS, CEv.tryConn socket a], Except.ok ()) := by
  intro n
  induction n with
  | zero => intro attempt a h1 h2 _ _; exact absurd h2 (by omega)
  | succ m ih =>
    intro attempt a h1 h2 hf ha
    rw [connectLoop_succ]
    by_cases hae : a = attempt + 1
    · subst hae
      have hz : attempt + 1 - attempt - 1 = 0 := by omega
      simp [ha, hz, attemptTrace]
    · have h1' : env.attemptOk (attempt + 1) = false := hf (attempt + 1) (by omega) (by omega)
      cases m with
      | zero => exact absurd h2 (by omega)
      | succ k =>
        have hrec := ih (attempt + 1) a (by omega) (by omega)
          (fun j hj1 hj2 => hf j (by omega) hj2) ha
        have hsub : a - attempt - 1 = (a - (attempt + 1) - 1) + 1 := by omega
        rw [hsub]
        simp [h1', hrec, attemptTrace]

/-! ## Claim theorems -/

/-- C1: the client handles daemon messages strictly in arrival order: each
`write` prints its text to standard output at its position in the trace;
each `prompt` prints its message without a trailing newline, consumes
exactly one standard-input line, strips its trailing newline and sends it
back as an InputMessage on the same stream; the first `response` ends the
session (any items after it are never handled), printing stdout to standard
output and stderr to standard error and exiting with the supplied exit
code (i32-cast, default 1); any number of prompt/write messages (including
zero) may precede the response, and the trace is exactly the concatenation
of the per-message traces in arrival order, with no reordering. -/
theorem claim_C1_session_order (pre : List Msg)
    (h : ∀ m ∈ pre, m.isResponse = false) (f : RespFields)
    (rest : List StreamItem) (stdin : List String) :
    sessionLoop ReqKind.run
        (pre.map StreamItem.msg ++ StreamItem.msg (Msg.response f) :: rest) stdin
      = (preTrace pre stdin ++ (outOpt f.stdout ++ errOpt f.stderr),
         wrap32 (f.exitCode.getD 1)) := by
  rw [sessionLoop_pre ReqKind.run pre h]
  simp [sessionLoop, respEvents]

/-- Witness for C1, the scripted daemon of the spec: write A, prompt B?,
write C, response with stdout D and exit code 0, with one line of terminal
input available. -/
theorem claim_C1_session_order_witness :
    sessionLoop ReqKind.run
        ([Msg.write (some "A"), Msg.prompt (some "B? "),
          Msg.write (some "C")].map StreamItem.msg ++
          StreamItem.msg (Msg.response ⟨some "D", none, some 0, none, none⟩) :: [])
        ["hi\n"]
      = ([Ev.out "A", Ev.out "B? ", Ev.sendInput "hi", Ev.out "C", Ev.out "D"], 0) :=
  (claim_C1_session_order
    [Msg.write (some "A"), Msg.prompt (some "B? "), Msg.write (some "C")]
    (by decide) ⟨some "D", none, some 0, none, none⟩ [] ["hi\n"]).trans (by decide)

/-- C8: if the stream ends before any `response` message, the client reports
the unexpected-close condition on standard error, exits with status 1, and
the trace holds nothing beyond the prior intermediate messages, in
particular nothing printed from a response. -/
theorem claim_C8_unexpected_close (kind : ReqKind) (pre : List Msg)
    (h : ∀ m ∈ pre, m.isResponse = false) (stdin : List String) :
    sessionLoop kind (pre.map StreamItem.msg) stdin
      = (preTrace pre stdin ++ [Ev.err "Daemon closed connection unexpectedly"], 1) := by
  have hp := sessionLoop_pre kind pre h [] stdin
  simpa [sessionLoop] using hp

/-- Witness for C8: a write followed by end of stream. -/
theorem claim_C8_unexpected_close_witness :
    sessionLoop ReqKind.run ([Msg.write (some "partial")].map StreamItem.msg) []
      = ([Ev.out "partial", Ev.err "Daemon closed connection unexpectedly"], 1) :=
  (claim_C8_unexpected_close ReqKind.run [Msg.write (some "partial")]
    (by decide) []).trans (by decide)

/-- C10: a session for a `complete` request always exits with status 0 once
its terminal `response` arrives, whatever exitCode field the response
carries; the daemon-supplied exit code determines the exit status only for
ordinary `run` requests. -/
theorem claim_C10_complete_exit_zero (pre : List Msg)
    (h : ∀ m ∈ pre, m.isResponse = false) (f : RespFields)
    (rest : List StreamItem) (stdin : List String) :
    (sessionLoop ReqKind.complete
        (pre.map StreamItem.msg ++ StreamItem.msg (Msg.response f) :: rest) stdin).2 = 0
    ∧ (sessionLoop ReqKind.run
        (pre.map StreamItem.msg ++ StreamItem.msg (Msg.response f) :: rest) stdin).2
      = wrap32 (f.exitCode.getD 1) := by
  constructor
  · rw [sessionLoop_pre ReqKind.complete pre h]
    cases hco : f.completionOutput <;>
      cases hcs : f.completions <;>
        simp [sessionLoop, respEvents, hco, hcs]
  · rw [sessionLoop_pre ReqKind.run pre h]
    simp [sessionLoop, respEvents]

/-- Witness for C10: a completion response carrying exit code 7 still makes
the complete-mode client exit 0, while a run-mode client would exit 7. -/
theorem claim_C10_complete_exit_zero_witness :
    (sessionLoop ReqKind.complete
        ([].map StreamItem.msg ++
          StreamItem.msg (Msg.response ⟨none, none, some 7, none, some "foo\nbar\n"⟩) :: [])
        []).2 = 0
    ∧ (sessionLoop ReqKind.run
        ([].map StreamItem.msg ++
          StreamItem.msg (Msg.response ⟨none, none, some 7, none, some "foo\nbar\n"⟩) :: [])
        []).2 = wrap32 ((some (7 : Int)).getD 1) :=
  claim_C10_complete_exit_zero [] (by decide)
    ⟨none, none, some 7, none, some "foo\nbar\n"⟩ [] []

/-- C3 counterexample: when `connect` fails (spawn error or exhaustion), the
client does not exit 1 as the claim states; it falls back to direct
execution and exits with the direct child's status, here 0. -/
theorem claim_C3_counterexample :
    mainExit ReqKind.run
      { connectRes := Except.error "Failed to connect after 20 attempts: connection refused"
        scriptRes := Except.ok "/repo/src/index.ts"
        directRes := Except.ok (some 0)
        writeRes := Except.ok ()
        items := []
        stdin := [] } = 0 ∧ (0 : Int) ≠ 1 :=
  ⟨rfl, by decide⟩

/-- C3 amended: with an established connection and a written request, the
exit status equals the i32-cast daemon exit code (default 1) for a run
response, and is 1 on a parse error, a socket read error, an unexpected
close, or a request-write failure; but when `connect` fails (spawn error or
exhaustion), the client falls back to direct execution and exits with the
fallback status: 1 if the daemon script cannot be resolved or the child
cannot be launched, otherwise the child's own exit code (1 when absent). -/
theorem claim_C3_exit_status (scriptRes : Except String String)
    (directRes : Except String (Option Int)) (items : List StreamItem)
    (stdin : List String) :
    (∀ (pre : List Msg) (f : RespFields) (rest : List StreamItem),
      (∀ m ∈ pre, m.isResponse = false) →
      mainExit ReqKind.run
        { connectRes := Except.ok (), scriptRes := scriptRes, directRes := directRes
          writeRes := Except.ok ()
          items := pre.map StreamItem.msg ++ StreamItem.msg (Msg.response f) :: rest
          stdin := stdin } = wrap32 (f.exitCode.getD 1))
    ∧ (∀ (kind : ReqKind) (pre : List Msg),
      (∀ m ∈ pre, m.isResponse = false) →
      mainExit kind
        { connectRes := Except.ok (), scriptRes := scriptRes, directRes := directRes
          writeRes := Except.ok (), items := pre.map StreamItem.msg
          stdin := stdin } = 1)
    ∧ (∀ (kind : ReqKind) (pre : List Msg) (e : String) (rest : List StreamItem),
      (∀ m ∈ pre, m.isResponse = false) →
      mainExit kind
        { connectRes := Except.ok (), scriptRes := scriptRes, directRes := directRes
          writeRes := Except.ok ()
          items := pre.map StreamItem.msg ++ StreamItem.malformed e :: rest
          stdin := stdin } = 1)
    ∧ (∀ (kind : ReqKind) (pre : List Msg) (e : String) (rest : List StreamItem),
      (∀ m ∈ pre, m.isResponse = false) →
      mainExit kind
        { connectRes := Except.ok (), scriptRes := scriptRes, directRes := directRes
          writeRes := Except.ok ()
          items := pre.map StreamItem.msg ++ StreamItem.readErr e :: rest
          stdin := stdin } = 1)
    ∧ (∀ (kind : ReqKind) (e werr : String), mainExit kind
        { connectRes := Except.ok (), scriptRes := scriptRes, directRes := directRes
          writeRes := Except.error werr, items := items, stdin := stdin } = 1
      ∧ mainExit kind
        { connectRes := Except.error e, scriptRes := scriptRes, directRes := directRes
          writeRes := Except.ok (), items := items, stdin := stdin }
        = runDirectExit scriptRes directRes) := by
  refine ⟨?_, ?_, ?_, ?_, ?_⟩
  · intro pre f rest h
    have hs := sessionLoop_pre ReqKind.run pre h
      (StreamItem.msg (Msg.response f) :: rest) stdin
    simp [mainExit, hs, sessionLoop, respEvents]
  · intro kind pre h
    have hs := sessionLoop_pre kind pre h [] stdin
    rw [List.append_nil] at hs
    simp [mainExit, hs, sessionLoop]
  · intro kind pre e rest h
    have hs := sessionLoop_pre kind pre h (StreamItem.malformed e :: rest) stdin
    simp [mainExit, hs, sessionLoop]
  · intro kind pre e rest h
    have hs := sessionLoop_pre kind pre h (StreamItem.readErr e :: rest) stdin
    simp [mainExit, hs, sessionLoop]
  · intro kind e werr
    exact ⟨rfl, rfl⟩

/-- C2 amended: when the immediate attempt fails, the daemon is not alive
and spawn succeeds, both `connect` variants clean stale files then spawn
exactly once, then run the bounded retry loop of at most 20 attempts with a
50 ms sleep before each, returning the stream at the first successful
attempt; on total failure both report an error naming the attempt count and
the last underlying error, and the rust-proxy variant additionally names
the socket path while the cli variant's message omits it. -/
theorem claim_C2_spawn_then_retry (home root : String) (env : ConnEnv)
    (h0 : env.attemptOk 0 = false) (halive : env.alive = false)
    (hspawn : env.spawnRes = Except.ok ()) :
    ((∀ j, 1 ≤ j → j ≤ MAX_CONNECT_ATTEMPTS → env.attemptOk j = false) →
      connectCli home root env
        = ([CEv.tryConn (DaemonPaths.for_project home root).socket 0,
            CEv.checkAlive, CEv.cleanStale, CEv.spawnEv] ++
           attemptTrace (DaemonPaths.for_project home root).socket 1
             MAX_CONNECT_ATTEMPTS,
           Except.error (cliConnectErr (env.attemptErr MAX_CONNECT_ATTEMPTS)))
      ∧ connectProxy home env
        = ([CEv.tryConn (global_daemon_paths home).socket 0,
            CEv.checkAlive, CEv.cleanStale, CEv.spawnEv] ++
           attemptTrace (global_daemon_paths home).socket 1 MAX_CONNECT_ATTEMPTS,
           Except.error (proxyConnectErr (global_daemon_paths home).socket
             (env.attemptErr MAX_CONNECT_ATTEMPTS))))
    ∧ (∀ a, 1 ≤ a → a ≤ MAX_CONNECT_ATTEMPTS →
        (∀ j, 1 ≤ j → j < a → env.attemptOk j = false) →
        env.attemptOk a = true →
      connectCli home root env
        = ([CEv.tryConn (DaemonPaths.for_project home root).socket 0,
            CEv.checkAlive, CEv.cleanStale, CEv.spawnEv] ++
           (attemptTrace (DaemonPaths.for_project home root).socket 1 (a - 1) ++
            [CEv.sleep CONNECT_RETRY_MS,
             CEv.tryConn (DaemonPaths.for_project home root).socket a]),
           Except.ok ())
      ∧ connectProxy home env
        = ([CEv.tryConn (global_daemon_paths home).socket 0,
            CEv.checkAlive, CEv.cleanStale, CEv.spawnEv] ++
           (attemptTrace (global_daemon_paths home).socket 1 (a - 1) ++
            [CEv.sleep CONNECT_RETRY_MS,
             CEv.tryConn (global_daemon_paths home).socket a]),
           Except.ok ())) := by
  have hm : ∀ (socket : String) (errFmt : String → String),
      connectModel env socket errFmt
        = ([CEv.tryConn socket 0, CEv.checkAlive, CEv.cleanStale, CEv.spawnEv] ++
            (connectLoop env socket errFmt 0 MAX_CONNECT_ATTEMPTS).1,
           (connectLoop env socket errFmt 0 MAX_CONNECT_ATTEMPTS).2) := by
    intro socket errFmt
    simp [connectModel, h0, halive, hspawn]
  constructor
  · intro hfail
    have hl : ∀ (socket : String) (errFmt : String → String),
        connectLoop env socket errFmt 0 MAX_CONNECT_ATTEMPTS
          = (attemptTrace socket 1 MAX_CONNECT_ATTEMPTS,
             Except.error (errFmt (env.attemptErr MAX_CONNECT_ATTEMPTS))) := by
      intro socket errFmt
      have hc := connectLoop_all_fail env socket errFmt MAX_CONNECT_ATTEMPTS 0
        (by norm_num [MAX_CONNECT_ATTEMPTS])
        (fun j hj1 hj2 => hfail j (by omega) (by omega))
      simpa using hc
    constructor
    · simp only [connectCli]; rw [hm, hl]
    · simp only [connectProxy]; rw [hm, hl]
  · intro a ha1 ha2 hbefore ha
    have hl : ∀ (socket : String) (errFmt : String → String),
        connectLoop env socket errFmt 0 MAX_CONNECT_ATTEMPTS
          = (attemptTrace socket 1 (a - 1) ++
             [CEv.sleep CONNECT_RETRY_MS, CEv.tryConn socket a], Except.ok ()) := by
      intro socket errFmt
      have hc := connectLoop_first_success env socket errFmt MAX_CONNECT_ATTEMPTS 0 a
        (by omega) (by omega) (fun j hj1 hj2 => hbefore j (by omega) hj2) ha
      simpa using hc
    constructor
    · simp only [connectCli]; rw [hm, hl]
    · simp only [connectProxy]; rw [hm, hl]

/-- Witness for the amended C2: total connection failure with a not-alive
daemon and a successful spawn, for both variants. -/
theorem claim_C2_spawn_then_retry_witness :
    connectCli "/home/u" "/proj"
      { attemptOk := fun _ => false, attemptErr := fun _ => "connection refused"
        alive := false, spawnRes := Except.ok () }
      = ([CEv.tryConn (DaemonPaths.for_project "/home/u" "/proj").socket 0,
          CEv.checkAlive, CEv.cleanStale, CEv.spawnEv] ++
         attemptTrace (DaemonPaths.for_project "/home/u" "/proj").socket 1
           MAX_CONNECT_ATTEMPTS,
         Except.error (cliConnectErr "connection refused"))
    ∧ connectProxy "/home/u"
      { attemptOk := fun _ => false, attemptErr := fun _ => "connection refused"
        alive := false, spawnRes := Except.ok () }
      = ([CEv.tryConn (global_daemon_paths "/home/u").socket 0,
          CEv.checkAlive, CEv.cleanStale, CEv.spawnEv] ++
         attemptTrace (global_daemon_paths "/home/u").socket 1 MAX_CONNECT_ATTEMPTS,
         Except.error (proxyConnectErr (global_daemon_paths "/home/u").socket
           "connection refused")) :=
  (claim_C2_spawn_then_retry "/home/u" "/proj"
    { attemptOk := fun _ => false, attemptErr := fun _ => "connection refused"
      alive := false, spawnRes := Except.ok () } rfl rfl rfl).1
    (fun _ _ _ => rfl)

/-- C2 counterexample: the cli variant's exhaustion error does not describe
the socket path.  With identical connection outcomes, two different HOME
values give two different socket paths but the very same error message, so
the message cannot name the socket path. -/
theorem claim_C2_counterexample :
    (connectCli "/a" "/p"
      { attemptOk := fun _ => false, attemptErr := fun _ => "connection refused"
        alive := false, spawnRes := Except.ok () }).2
      = Except.error "Failed to connect after 20 attempts: connection refused"
    ∧ (connectCli "/ab" "/p"
      { attemptOk := fun _ => false, attemptErr := fun _ => "connection refused"
        alive := false, spawnRes := Except.ok () }).2
      = Except.error "Failed to connect after 20 attempts: connection refused"
    ∧ (DaemonPaths.for_project "/a" "/p").socket
      ≠ (DaemonPaths.for_project "/ab" "/p").socket := by
  refine ⟨rfl, rfl, ?_⟩
  intro hcontra
  have hlen := congrArg String.length hcontra
  simp only [DaemonPaths.for_project, pathJoin, String.length_append] at hlen
  have h2 : ("/a" : String).length = 2 := rfl
  have h3 : ("/ab" : String).length = 3 := rfl
  rw [h2, h3] at hlen
  omega

/-- C6: when the immediate connection attempt succeeds, both `connect`
variants return the stream at once: the trace is the single attempt, with
no liveness check, no stale cleanup, no spawn and no sleep. -/
theorem claim_C6_fast_path (home root : String) (env : ConnEnv)
    (h : env.attemptOk 0 = true) :
    connectCli home root env
      = ([CEv.tryConn (DaemonPaths.for_project home root).socket 0], Except.ok ())
    ∧ connectProxy home env
      = ([CEv.tryConn (global_daemon_paths home).socket 0], Except.ok ()) := by
  constructor <;> simp [connectCli, connectProxy, connectModel, h]

/-- Witness for C6: a listener already bound, so the immediate attempt
succeeds. -/
theorem claim_C6_fast_path_witness :
    connectCli "/home/u" "/proj"
      { attemptOk := fun _ => true, attemptErr := fun _ => "", alive := true
        spawnRes := Except.ok () }
      = ([CEv.tryConn (DaemonPaths.for_project "/home/u" "/proj").socket 0],
         Except.ok ())
    ∧ connectProxy "/home/u"
      { attemptOk := fun _ => true, attemptErr := fun _ => "", alive := true
        spawnRes := Except.ok () }
      = ([CEv.tryConn (global_daemon_paths "/home/u").socket 0], Except.ok ()) :=
  claim_C6_fast_path "/home/u" "/proj"
    { attemptOk := fun _ => true, attemptErr := fun _ => "", alive := true
      spawnRes := Except.ok () } rfl

/-- C4: `is_daemon_alive` returns false when the pid file is absent, or
when its trimmed content (in particular the empty string) is not parsable
as an i32, and otherwise returns exactly the result of the signal-zero
existence probe on the parsed pid — in every case without raising an
error (it is a total function into Bool). -/
theorem claim_C4_liveness (kill0 : Int → Bool) :
    is_daemon_alive none kill0 = false
    ∧ parseI32 (rustTrim "") = none
    ∧ (∀ s, parseI32 (rustTrim s) = none → is_daemon_alive (some s) kill0 = false)
    ∧ (∀ s pid, parseI32 (rustTrim s) = some pid →
        is_daemon_alive (some s) kill0 = kill0 pid) := by
  refine ⟨rfl, rfl, ?_, ?_⟩
  · intro s h
    simp [is_daemon_alive, h]
  · intro s pid h
    simp [is_daemon_alive, h]

/-- Witness for C4: a pid file holding 42 with surrounding whitespace is
probed for process 42; a non-numeric pid file yields false. -/
theorem claim_C4_liveness_witness :
    is_daemon_alive (some " 42\n") (fun pid => pid == 42) = true
    ∧ is_daemon_alive (some "oops") (fun pid => pid == 42) = false := by
  constructor
  · exact ((claim_C4_liveness (fun pid => pid == 42)).2.2.2 " 42\n" 42
      (by decide)).trans (by decide)
  · exact (claim_C4_liveness (fun pid => pid == 42)).2.2.1 "oops" (by decide)

/-- The ascent loop visits exactly the ancestor chain: it returns the first
directory (deepest first, up to and including the filesystem root) that
carries both markers. -/
theorem rootSearch_eq_find (fs : FS) (d : List String) :
    rootSearch fs d = (ancestors d).find? (hasMarkers fs) := by
  induction d with
  | nil =>
    by_cases h : hasMarkers fs [] <;> simp [rootSearch, ancestors, List.find?, h]
  | cons c rest ih =>
    by_cases h : hasMarkers fs (c :: rest) <;>
      simp [rootSearch, ancestors, List.find?, h, ih]

/-- C7: the project locator canonicalizes the starting directory and then
returns the first directory among it and its ancestors (ascending to the
filesystem root) that contains both the marker file max.json and the marker
directory .max; when no ancestor qualifies, `find?` is none and so is the
result — an ordinary value, not an error. -/
theorem claim_C7_project_locator (fs : FS) (start_dir d : List String)
    (h : fs.canonicalize start_dir = some d) :
    find_project_root fs start_dir = (ancestors d).find? (hasMarkers fs) := by
  simp [find_project_root, h, rootSearch_eq_find]

/-- Witness for C7: starting from a subdirectory of a project whose root
carries both markers, the locator returns the project root. -/
theorem claim_C7_project_locator_witness :
    find_project_root
      { pathExists := fun p => p == ["max.json", "proj", "u", "home"]
        isDir := fun p => p == [".max", "proj", "u", "home"]
        canonicalize := fun p =>
          if p == ["sub", "proj", "u", "home"] then
            some ["sub", "proj", "u", "home"]
          else none }
      ["sub", "proj", "u", "home"]
      = some ["proj", "u", "home"] :=
  (claim_C7_project_locator
    { pathExists := fun p => p == ["max.json", "proj", "u", "home"]
      isDir := fun p => p == [".max", "proj", "u", "home"]
      canonicalize := fun p =>
        if p == ["sub", "proj", "u", "home"] then
          some ["sub", "proj", "u", "home"]
        else none }
    ["sub", "proj", "u", "home"] ["sub", "proj", "u", "home"]
    (by decide)).trans (by decide)

/-- C9 counterexample: the claim says stderr is appended to the existing
log file so previous log content is preserved, but `spawn` obtains the log
handle from `File::create`, which is create-or-truncate: at a concrete
fully successful spawn the stderr handle has create-truncate open mode, and
opening in that mode destroys old content instead of preserving it. -/
theorem claim_C9_counterexample :
    (spawnCli
        { scriptRes := Except.ok "/repo/src/index.ts", dev := false
          mkdirRes := Except.ok (), writeJsonRes := Except.ok ()
          createLogRes := Except.ok (), osSpawnRes := Except.ok () }
        "/proj" (DaemonPaths.for_project "/home/u" "/proj")).map
        (fun spec => spec.stderrOpen)
      = Except.ok OpenMode.createTruncate
    ∧ OpenMode.createTruncate ≠ OpenMode.appendExisting
    ∧ applyOpen OpenMode.createTruncate (some "old daemon log") = ""
    ∧ applyOpen OpenMode.appendExisting (some "old daemon log") = "old daemon log" :=
  ⟨rfl, by decide, rfl, rfl⟩

/-- C9 amended: every successful `spawn` launches the daemon as a
background child with stdin from the null device, stdout to the null device
and stderr bound to the log file — but the log handle is opened with
create-truncate semantics, so log content from previous daemon runs is
destroyed, not preserved.  Holds for both the per-project and the global
variant. -/
theorem claim_C9_spawn_wiring (env : SpawnEnv) (root script : String)
    (paths : DaemonPaths) (hscript : env.scriptRes = Except.ok script)
    (hmk : env.mkdirRes = Except.ok ()) (hjson : env.writeJsonRes = Except.ok ())
    (hlog : env.createLogRes = Except.ok ()) (hos : env.osSpawnRes = Except.ok ()) :
    spawnCli env root paths = Except.ok
      { program := "bun"
        args := (if env.dev then ["--watch"] else ["run"]) ++
          [script, "--daemonized", "--project-root", root]
        cwd := some root
        stdinCfg := StdioCfg.nullDev
        stdoutCfg := StdioCfg.nullDev
        stderrCfg := StdioCfg.toFile paths.log
        stderrOpen := OpenMode.createTruncate }
    ∧ spawnProxy env paths = Except.ok
      { program := "bun"
        args := (if env.dev then ["--watch"] else ["run"]) ++ [script, "--daemonized"]
        cwd := none
        stdinCfg := StdioCfg.nullDev
        stdoutCfg := StdioCfg.nullDev
        stderrCfg := StdioCfg.toFile paths.log
        stderrOpen := OpenMode.createTruncate }
    ∧ (∀ prev, applyOpen OpenMode.createTruncate prev = "") := by
  refine ⟨?_, ?_, fun prev => rfl⟩ <;>
    simp [spawnCli, spawnProxy, hscript, hmk, hjson, hlog, hos]

/-- Witness for the amended C9: a concrete successful spawn in release
mode. -/
theorem claim_C9_spawn_wiring_witness :
    spawnCli
      { scriptRes := Except.ok "/repo/src/index.ts", dev := false
        mkdirRes := Except.ok (), writeJsonRes := Except.ok ()
        createLogRes := Except.ok (), osSpawnRes := Except.ok () }
      "/proj" (DaemonPaths.for_project "/home/u" "/proj")
      = Except.ok
      { program := "bun"
        args := ["run", "/repo/src/index.ts", "--daemonized", "--project-root", "/proj"]
        cwd := some "/proj"
        stdinCfg := StdioCfg.nullDev
        stdoutCfg := StdioCfg.nullDev
        stderrCfg := StdioCfg.toFile (DaemonPaths.for_project "/home/u" "/proj").log
        stderrOpen := OpenMode.createTruncate } :=
  ((claim_C9_spawn_wiring
    { scriptRes := Except.ok "/repo/src/index.ts", dev := false
      mkdirRes := Except.ok (), writeJsonRes := Except.ok ()
      createLogRes := Except.ok (), osSpawnRes := Except.ok () }
    "/proj" "/repo/src/index.ts" (DaemonPaths.for_project "/home/u" "/proj")
    rfl rfl rfl rfl rfl).1).trans rfl

/-- The digest output is always exactly 32 bytes. -/
theorem digestBytes_length (st : Sha256.H8) :
    (Sha256.digestBytes st).length = 32 := by
  simp [Sha256.digestBytes, Sha256.wordBE]

/-- Every digest output byte is below 256. -/
theorem digestBytes_lt (st : Sha256.H8) :
    ∀ b ∈ Sha256.digestBytes st, b < 256 := by
  intro b hb
  simp [Sha256.digestBytes, Sha256.wordBE] at hb
  omega

/-- Each hex-rendered byte is a two-character string. -/
theorem byteHex_length (b : Nat) : (byteHex b).length = 2 := rfl

/-- The length of a concatenation is the sum of the lengths. -/
theorem strConcat_length (l : List String) :
    (strConcat l).length = (l.map String.length).sum := by
  induction l with
  | nil => rfl
  | cons s rest ih => simp [strConcat, ih]

/-- Every character of a concatenation comes from one of the fragments. -/
theorem mem_strConcat {l : List String} {c : Char}
    (h : c ∈ (strConcat l).data) : ∃ s ∈ l, c ∈ s.data := by
  induction l with
  | nil => exact absurd h (List.not_mem_nil c)
  | cons s rest ih =>
    rw [strConcat, String.data_append, List.mem_append] at h
    rcases h with h | h
    · exact ⟨s, List.mem_cons_self s rest, h⟩
    · obtain ⟨t, ht, hct⟩ := ih h
      exact ⟨t, List.mem_cons_of_mem s ht, hct⟩

/-- Hex digits of indices below 16 are lowercase hexadecimal characters. -/
theorem hexDigit_mem (n : Nat) (h : n < 16) :
    hexDigit n ∈ ("0123456789abcdef" : String).data := by
  interval_cases n <;> decide

/-- The project identity is always a 12-character string. -/
theorem project_hash_length (root : String) : (project_hash root).length = 12 := by
  rw [project_hash, strConcat_length, List.map_map]
  have h32 : (Sha256.sha256 (utf8 root)).length = 32 := by
    simp [Sha256.sha256, digestBytes_length]
  have h6 : ((Sha256.sha256 (utf8 root)).take 6).length = 6 := by
    rw [List.length_take]
    omega
  have hall : ((Sha256.sha256 (utf8 root)).take 6).map (String.length ∘ byteHex)
      = ((Sha256.sha256 (utf8 root)).take 6).map (fun _ => 2) := by
    apply List.map_congr_left
    intro b _
    exact byteHex_length b
  rw [hall, List.map_const', h6]
  rfl

/-- Every character of the project identity is a hexadecimal digit. -/
theorem project_hash_hex (root : String) :
    ∀ c ∈ (project_hash root).data, c ∈ ("0123456789abcdef" : String).data := by
  intro c hc
  obtain ⟨s, hs, hcs⟩ := mem_strConcat hc
  obtain ⟨b, hb, rfl⟩ := List.mem_map.1 hs
  have hb256 : b < 256 := by
    have hmem : b ∈ Sha256.sha256 (utf8 root) :=
      List.take_subset 6 _ hb
    revert hmem
    simp only [Sha256.sha256]
    exact digestBytes_lt _ b
  have hdata : (byteHex b).data = [hexDigit (b / 16), hexDigit (b % 16)] := rfl
  rw [hdata] at hcs
  simp only [List.mem_cons, List.not_mem_nil, or_false] at hcs
  rcases hcs with rfl | rfl
  · exact hexDigit_mem (b / 16) (by omega)
  · exact hexDigit_mem (b % 16) (by omega)

/-- C5 amended: the daemon identity is a pure function of the project root
string alone and is always a short fixed-length hexadecimal fingerprint (12
lowercase hex characters); the derived paths are a pure function of the
root string and the ambient HOME value, all four derived together from one
identity directory.  With HOME fixed, repeated calls agree; the identity
never varies at all. -/
theorem claim_C5_addressing (home root : String) :
    (project_hash root).length = 12
    ∧ (∀ c ∈ (project_hash root).data, c ∈ ("0123456789abcdef" : String).data)
    ∧ (DaemonPaths.for_project home root).dir
        = pathJoin (pathJoin (pathJoin home ".max") "daemons") (project_hash root)
    ∧ (DaemonPaths.for_project home root).socket
        = pathJoin (DaemonPaths.for_project home root).dir "daemon.sock"
    ∧ (DaemonPaths.for_project home root).pid
        = pathJoin (DaemonPaths.for_project home root).dir "daemon.pid"
    ∧ (DaemonPaths.for_project home root).log
        = pathJoin (DaemonPaths.for_project home root).dir "daemon.log" :=
  ⟨project_hash_length root, project_hash_hex root, rfl, rfl, rfl, rfl⟩

/-- C5 counterexample: the derived daemon paths do depend on ambient state
other than the root path string, namely the HOME environment variable: the
same root under two different HOME values yields two different socket
paths. -/
theorem claim_C5_counterexample :
    (DaemonPaths.for_project "/a" "/p").socket
      ≠ (DaemonPaths.for_project "/ab" "/p").socket := by
  intro hcontra
  have hlen := congrArg String.length hcontra
  simp only [DaemonPaths.for_project, pathJoin, String.length_append] at hlen
  have h2 : ("/a" : String).length = 2 := rfl
  have h3 : ("/ab" : String).length = 3 := rfl
  rw [h2, h3] at hlen
  omega

/-- Witness for the amended C3: a run response with exit code 3 yields exit
status 3 with a connection, and a failed connection with a direct child
exiting 5 yields exit status 5. -/
theorem claim_C3_exit_status_witness :
    mainExit ReqKind.run
      { connectRes := Except.ok (), scriptRes := Except.ok "/repo/src/index.ts"
        directRes := Except.ok (some 5), writeRes := Except.ok ()
        items := [StreamItem.msg (Msg.response ⟨none, none, some 3, none, none⟩)]
        stdin := [] } = 3
    ∧ mainExit ReqKind.run
      { connectRes := Except.error "spawn failed"
        scriptRes := Except.ok "/repo/src/index.ts"
        directRes := Except.ok (some 5), writeRes := Except.ok ()
        items := [StreamItem.msg (Msg.response ⟨none, none, some 3, none, none⟩)]
        stdin := [] } = 5 := by
  have h := claim_C3_exit_status (Except.ok "/repo/src/index.ts")
    (Except.ok (some 5))
    [StreamItem.msg (Msg.response ⟨none, none, some 3, none, none⟩)] []
  refine ⟨?_, ?_⟩
  · have h1 := h.1 [] ⟨none, none, some 3, none, none⟩ [] (by decide)
    exact h1.trans (by decide)
  · have h4 := (h.2.2.2.2 ReqKind.run "spawn failed" "w").2
    exact h4.trans (by decide)

end MaxProxy
